import Mathlib

/-!
Verification of the `/light-control` HTTP endpoint implemented in
`test-server.py` (class `LightShowHandler`).

The handler is embedded shallowly:

* JSON values are modelled by the inductive `Json`.  An integer literal
  decodes to a Python int (`Json.num : Int`); a literal with a fraction or
  exponent part decodes to a Python float, modelled as its exact decimal
  value (`Json.float : ℚ`).  IEEE-754 rounding, the overflow of huge
  exponents to infinity and the shortest-round-trip formatting of `str()`
  on floats are abstracted: `pyFloatRepr` renders the exact value in
  CPython's format, and no claim's verdict depends on the difference.  The
  non-standard `NaN`/`Infinity` literals accepted by `json.loads` are not
  valid JSON, so they lie outside every claim's scope and are not
  modelled.
* Request bytes are modelled as `List Nat` (one entry per byte); the strict
  UTF-8 decoder `utf8Decode` mirrors `bytes.decode('utf-8')`, rejecting
  stray continuation bytes, overlong forms, surrogate code points and
  sequences above U+10FFFF.
* `jsonLoads` is a fuel-indexed recursive-descent parser for the JSON
  grammar accepted by Python's `json.loads` (strict mode).  String escapes
  follow CPython, including `\uXXXX` surrogate pairing; a *lone*
  surrogate escape, which CPython keeps as an unpaired surrogate that no
  well-formed Unicode text (and no Lean `Char`) can carry, is mapped to
  U+0000.
* Python exceptions raised inside the handler's `try` block are modelled by
  `PyErr`; `PyErr.message` abstracts CPython's exact wording (only
  non-emptiness of the description is ever claimed).
* `datetime.fromtimestamp(ms / 1000)` succeeds exactly when the resulting
  time fits the `datetime` range (year 1 to 9999); `fromtimestampOk` uses
  the UTC bounds in milliseconds.  The local-timezone shift of the two
  endpoints is irrelevant to every claim.
* One HTTP exchange is `handle : Request → Option Response`; `none` means
  the handler raised before any response was written (the serving framework
  then drops the connection without an HTTP answer).  Headers record those
  set explicitly by the handler code (plus the stdlib error-page headers
  for unsupported methods); the automatic `Server`/`Date` headers are
  uniformly omitted, which no claim mentions.
-/

/-- A JSON value as produced by `json.loads`: `num` for Python ints
(integer literals), `float` for Python floats (literals with a fraction or
exponent part), carried as their exact decimal value.  Object fields keep
textual order; `jget` resolves duplicate keys to the last occurrence, as a
Python `dict` built from a JSON object does. -/
inductive Json where
  | null
  | bool (b : Bool)
  | num (n : Int)
  | float (q : ℚ)
  | str (s : String)
  | arr (elems : List Json)
  | obj (fields : List (String × Json))

/-- `d.get(key)` on the dict decoded from a JSON object: the value at the
last occurrence of `key`, if any. -/
def jget (fields : List (String × Json)) (key : String) : Option Json :=
  fields.foldl (fun acc kv => if kv.1 = key then some kv.2 else acc) none

/-- Name of the Python type of a decoded JSON value (as appearing in
`AttributeError` / `TypeError` messages). -/
def Json.pyType : Json → String
  | .null => "NoneType"
  | .bool _ => "bool"
  | .num _ => "int"
  | .float _ => "float"
  | .str _ => "str"
  | .arr _ => "list"
  | .obj _ => "dict"

/-- Is the value a JSON object (a Python `dict`, the only decoded type with
a `.get` attribute)? -/
def Json.isObj : Json → Bool
  | .obj _ => true
  | _ => false

/-- Escaping of one character inside Python `repr` of a string delimited
by `quote`.  CPython additionally hex-escapes control characters other
than the three below; no claim reaches that case. -/
def reprEscapeChar (quote : Char) (c : Char) : String :=
  if c = '\\' then "\\\\"
  else if c = quote then "\\" ++ String.mk [quote]
  else if c = '\n' then "\\n"
  else if c = '\r' then "\\r"
  else if c = '\t' then "\\t"
  else String.mk [c]

/-- Python `repr` of a string: single-quoted, except that CPython switches
to double quotes when the string contains a single quote and no double
quote. -/
def pyStrRepr (s : String) : String :=
  let q : Char :=
    if s.data.contains (Char.ofNat 39) && !(s.data.contains '"') then '"'
    else Char.ofNat 39
  String.mk [q] ++ (s.data.map (reprEscapeChar q)).foldl (· ++ ·) "" ++ String.mk [q]

/-- How often `p` divides `n` (the fuel bounds the recursion; `n` itself
is always enough). -/
def countFactor (p : Nat) : Nat → Nat → Nat
  | 0, _ => 0
  | fuel + 1, n => if n % p = 0 ∧ 2 ≤ n then countFactor p fuel (n / p) + 1 else 0

/-- `str()` of a positive float whose exact value is `q` (the denominator
divides a power of ten, as for every parsed literal): positional notation
with CPython's thresholds, exponent notation with a two-digit exponent
otherwise. -/
def pyFloatPosRepr (q : ℚ) : String :=
  let k := max (countFactor 2 q.den q.den) (countFactor 5 q.den q.den)
  let scaled := q.num.natAbs * (10 ^ k / q.den)
  let ds := toString scaled
  let exp10 : Int := (ds.length : Int) - 1 - (k : Int)
  if -4 ≤ exp10 ∧ exp10 < 16 then
    if k = 0 then ds ++ ".0"
    else if ds.length ≤ k then
      "0." ++ String.mk (List.replicate (k - ds.length) '0') ++ ds
    else ds.take (ds.length - k) ++ "." ++ ds.drop (ds.length - k)
  else
    let mantHead := ds.take 1
    let restChars := ((ds.data.drop 1).reverse.dropWhile (fun c => c = '0')).reverse
    let mant :=
      if restChars.isEmpty then mantHead else mantHead ++ "." ++ String.mk restChars
    let esign := if exp10 < 0 then "-" else "+"
    let eabs := exp10.natAbs
    let estr := if eabs < 10 then "0" ++ toString eabs else toString eabs
    mant ++ "e" ++ esign ++ estr

/-- `str()` of the float with exact value `q`, as CPython formats it
(shortest-round-trip IEEE rounding abstracted to the exact value; the
unreachable negative zero prints as `0.0`). -/
def pyFloatRepr (q : ℚ) : String :=
  if q = 0 then "0.0"
  else if q < 0 then "-" ++ pyFloatPosRepr (-q)
  else pyFloatPosRepr q

mutual
/-- Python `repr()` of a decoded JSON value. -/
def pyRepr : Json → String
  | .null => "None"
  | .bool true => "True"
  | .bool false => "False"
  | .num n => toString n
  | .float q => pyFloatRepr q
  | .str s => pyStrRepr s
  | .arr xs => "[" ++ String.intercalate ", " (pyReprList xs) ++ "]"
  | .obj fs => "\x7b" ++ String.intercalate ", " (pyReprFields fs) ++ "\x7d"

/-- `repr` of each element of a decoded JSON array. -/
def pyReprList : List Json → List String
  | [] => []
  | x :: xs => pyRepr x :: pyReprList xs

/-- `repr` of each `key: value` entry of a decoded JSON object. -/
def pyReprFields : List (String × Json) → List String
  | [] => []
  | kv :: fs => (pyStrRepr kv.1 ++ ": " ++ pyRepr kv.2) :: pyReprFields fs
end

/-- Python `str()` of a decoded JSON value, as interpolated by the f-string
building the response message. -/
def pyStr : Json → String
  | .str s => s
  | j => pyRepr j

/-- Is `b` a UTF-8 continuation byte? -/
def isCont (b : Nat) : Bool := 0x80 ≤ b && b ≤ 0xBF

/-- Payload of a continuation byte. -/
def contVal (b : Nat) : Nat := b - 0x80

/-- Admissible first continuation byte after a three-byte leader `b`
(excludes overlong forms and surrogates, as CPython strict mode does). -/
def firstContOk3 (b c : Nat) : Bool :=
  if b = 0xE0 then 0xA0 ≤ c && c ≤ 0xBF
  else if b = 0xED then 0x80 ≤ c && c ≤ 0x9F
  else isCont c

/-- Admissible first continuation byte after a four-byte leader `b`
(excludes overlong forms and code points above U+10FFFF). -/
def firstContOk4 (b c : Nat) : Bool :=
  if b = 0xF0 then 0x90 ≤ c && c ≤ 0xBF
  else if b = 0xF4 then 0x80 ≤ c && c ≤ 0x8F
  else isCont c

/-- Fuel-indexed strict UTF-8 decoding (the fuel only discharges
termination; `utf8Decode` supplies enough for the whole input). -/
def utf8DecodeAux : Nat → List Nat → Option (List Char)
  | 0, _ => none
  | _ + 1, [] => some []
  | f + 1, b :: rest =>
    if b ≤ 0x7F then
      (utf8DecodeAux f rest).map (fun cs => Char.ofNat b :: cs)
    else if 0xC2 ≤ b && b ≤ 0xDF then
      match rest with
      | c :: rest2 =>
        if isCont c then
          (utf8DecodeAux f rest2).map
            (fun cs => Char.ofNat ((b - 0xC0) * 0x40 + contVal c) :: cs)
        else none
      | [] => none
    else if 0xE0 ≤ b && b ≤ 0xEF then
      match rest with
      | c :: d :: rest2 =>
        if firstContOk3 b c && isCont d then
          (utf8DecodeAux f rest2).map
            (fun cs =>
              Char.ofNat ((b - 0xE0) * 0x1000 + contVal c * 0x40 + contVal d) :: cs)
        else none
      | _ => none
    else if 0xF0 ≤ b && b ≤ 0xF4 then
      match rest with
      | c :: d :: e :: rest2 =>
        if firstContOk4 b c && isCont d && isCont e then
          (utf8DecodeAux f rest2).map
            (fun cs =>
              Char.ofNat
                ((b - 0xF0) * 0x40000 + contVal c * 0x1000 + contVal d * 0x40 +
                  contVal e) :: cs)
        else none
      | _ => none
    else none

/-- Strict UTF-8 decoding, `bytes.decode('utf-8')`: `none` exactly when
CPython raises `UnicodeDecodeError`. -/
def utf8Decode (l : List Nat) : Option (List Char) :=
  utf8DecodeAux (l.length + 1) l

/-- Skip JSON whitespace, as `json.loads` does between tokens. -/
def skipWs : List Char → List Char
  | c :: rest =>
    if c = ' ' ∨ c = '\t' ∨ c = '\n' ∨ c = '\r' then skipWs rest else c :: rest
  | [] => []

/-- Numeric value of a hexadecimal digit. -/
def hexVal (c : Char) : Option Nat :=
  if '0' ≤ c ∧ c ≤ '9' then some (c.toNat - 48)
  else if 'a' ≤ c ∧ c ≤ 'f' then some (c.toNat - 87)
  else if 'A' ≤ c ∧ c ≤ 'F' then some (c.toNat - 70)
  else none

/-- Body of a JSON string literal after the opening quote: returns the
decoded string and the input following the closing quote.  `\uXXXX`
escapes decode one code point, with a high/low surrogate escape pair
combined into one astral character as CPython does; a lone surrogate
escape maps to U+0000 (see the module docstring). -/
def parseStringRest (fuel : Nat) (cs : List Char) (acc : List Char) :
    Option (String × List Char) :=
  match fuel, cs with
  | 0, _ => none
  | _ + 1, [] => none
  | f + 1, c :: rest =>
    if c = '"' then some (String.mk acc.reverse, rest)
    else if c = '\\' then
      match rest with
      | [] => none
      | e :: rest2 =>
        if e = '"' then parseStringRest f rest2 ('"' :: acc)
        else if e = '\\' then parseStringRest f rest2 ('\\' :: acc)
        else if e = '/' then parseStringRest f rest2 ('/' :: acc)
        else if e = 'b' then parseStringRest f rest2 (Char.ofNat 8 :: acc)
        else if e = 'f' then parseStringRest f rest2 (Char.ofNat 12 :: acc)
        else if e = 'n' then parseStringRest f rest2 ('\n' :: acc)
        else if e = 'r' then parseStringRest f rest2 ('\r' :: acc)
        else if e = 't' then parseStringRest f rest2 ('\t' :: acc)
        else if e = 'u' then
          match rest2 with
          | h1 :: h2 :: h3 :: h4 :: rest3 =>
            match hexVal h1, hexVal h2, hexVal h3, hexVal h4 with
            | some v1, some v2, some v3, some v4 =>
              let v := v1 * 4096 + v2 * 256 + v3 * 16 + v4
              if 0xD800 ≤ v ∧ v ≤ 0xDBFF then
                match rest3 with
                | '\\' :: 'u' :: g1 :: g2 :: g3 :: g4 :: rest4 =>
                  match hexVal g1, hexVal g2, hexVal g3, hexVal g4 with
                  | some w1, some w2, some w3, some w4 =>
                    let w := w1 * 4096 + w2 * 256 + w3 * 16 + w4
                    if 0xDC00 ≤ w ∧ w ≤ 0xDFFF then
                      parseStringRest f rest4
                        (Char.ofNat
                          (0x10000 + (v - 0xD800) * 0x400 + (w - 0xDC00)) :: acc)
                    else parseStringRest f rest3 (Char.ofNat v :: acc)
                  | _, _, _, _ => parseStringRest f rest3 (Char.ofNat v :: acc)
                | _ => parseStringRest f rest3 (Char.ofNat v :: acc)
              else parseStringRest f rest3 (Char.ofNat v :: acc)
            | _, _, _, _ => none
          | _ => none
        else none
    else if c.toNat < 0x20 then none
    else parseStringRest f rest (c :: acc)

/-- Longest prefix of decimal digits and the remaining input. -/
def splitDigits : List Char → List Char × List Char
  | c :: rest =>
    if '0' ≤ c ∧ c ≤ '9' then
      let (ds, r) := splitDigits rest
      (c :: ds, r)
    else ([], c :: rest)
  | [] => ([], [])

/-- Value of a non-empty digit string. -/
def digitsVal (ds : List Char) : Nat :=
  ds.foldl (fun acc c => acc * 10 + (c.toNat - 48)) 0

/-- The exact rational `mant * 10 ^ e`, for decoding float literals
(phrased with `mkRat`, which normalizes and kernel-reduces). -/
def ratOfScaled (mant : Int) (e : Int) : ℚ :=
  if 0 ≤ e then mkRat (mant * 10 ^ e.toNat) 1
  else mkRat mant (10 ^ (-e).toNat)

/-- A JSON number literal at the head of the input: `-? int frac? exp?`
with `int = 0 | [1-9][0-9]*`.  JSON forbids leading zeros, so after an
initial `0` no further digit is consumed (a following digit then fails at
the caller, exactly where `json.loads` errors).  A plain integer literal
decodes to a Python int; a literal with a fraction or exponent part
decodes to a Python float, carried as its exact decimal value. -/
def parseNum (cs : List Char) : Option (Json × List Char) :=
  let (neg, cs1) :=
    match cs with
    | c :: rest => if c = '-' then (true, rest) else (false, cs)
    | [] => (false, cs)
  match cs1 with
  | c :: rest =>
    let ipart? : Option (Nat × List Char) :=
      if c = '0' then some (0, rest)
      else if '1' ≤ c ∧ c ≤ '9' then
        let (ds, r) := splitDigits rest
        some (digitsVal (c :: ds), r)
      else none
    match ipart? with
    | none => none
    | some (ipart, r1) =>
      let frac? : Option (Option (List Char) × List Char) :=
        match r1 with
        | '.' :: r2 =>
          match splitDigits r2 with
          | ([], _) => none
          | (fds, r3) => some (some fds, r3)
        | _ => some (none, r1)
      match frac? with
      | none => none
      | some (fds?, r4) =>
        let exp? : Option (Option Int × List Char) :=
          match r4 with
          | e :: r5 =>
            if e = 'e' ∨ e = 'E' then
              let sgn : Int × List Char :=
                match r5 with
                | s :: r6 =>
                  if s = '+' then (1, r6)
                  else if s = '-' then (-1, r6)
                  else (1, r5)
                | [] => (1, r5)
              match splitDigits sgn.2 with
              | ([], _) => none
              | (eds, r7) => some (some (sgn.1 * (digitsVal eds : Int)), r7)
            else some (none, r4)
          | [] => some (none, r4)
        match exp? with
        | none => none
        | some (e?, r8) =>
          match fds?, e? with
          | none, none =>
            some (Json.num (if neg then -(ipart : Int) else (ipart : Int)), r8)
          | _, _ =>
            let fds := (fds?).getD []
            let f := fds.length
            let e := (e?).getD 0
            let mant : Int := ((ipart * 10 ^ f + digitsVal fds : Nat) : Int)
            some (Json.float
              (ratOfScaled (if neg then -mant else mant) (e - (f : Int))), r8)
  | [] => none

mutual
/-- One JSON value at the head of the input (leading whitespace allowed),
returning it with the remaining input; `none` where `json.loads` raises
`JSONDecodeError`. -/
def parseVal : Nat → List Char → Option (Json × List Char)
  | 0, _ => none
  | f + 1, cs =>
    match skipWs cs with
    | [] => none
    | c :: rest =>
      if c = 'n' then
        match rest with
        | 'u' :: 'l' :: 'l' :: r => some (Json.null, r)
        | _ => none
      else if c = 't' then
        match rest with
        | 'r' :: 'u' :: 'e' :: r => some (Json.bool true, r)
        | _ => none
      else if c = 'f' then
        match rest with
        | 'a' :: 'l' :: 's' :: 'e' :: r => some (Json.bool false, r)
        | _ => none
      else if c = '"' then
        (parseStringRest (rest.length + 1) rest []).map
          (fun p => (Json.str p.1, p.2))
      else if c = '[' then
        match skipWs rest with
        | ']' :: r => some (Json.arr [], r)
        | _ => (parseArrItems f rest).map (fun p => (Json.arr p.1, p.2))
      else if c = '\x7b' then
        match skipWs rest with
        | '\x7d' :: r => some (Json.obj [], r)
        | _ => (parseObjItems f rest).map (fun p => (Json.obj p.1, p.2))
      else if c = '-' ∨ ('0' ≤ c ∧ c ≤ '9') then
        parseNum (c :: rest)
      else none

/-- Comma-separated array elements and the closing `]`. -/
def parseArrItems : Nat → List Char → Option (List Json × List Char)
  | 0, _ => none
  | f + 1, cs => do
    let (v, r1) ← parseVal f cs
    match skipWs r1 with
    | ',' :: r2 => (parseArrItems f r2).map (fun p => (v :: p.1, p.2))
    | ']' :: r2 => some ([v], r2)
    | _ => none

/-- Comma-separated `"key": value` members and the closing brace. -/
def parseObjItems : Nat → List Char → Option (List (String × Json) × List Char)
  | 0, _ => none
  | f + 1, cs =>
    match skipWs cs with
    | '"' :: rest => do
      let (k, r1) ← parseStringRest (rest.length + 1) rest []
      match skipWs r1 with
      | ':' :: r2 => do
        let (v, r3) ← parseVal f r2
        match skipWs r3 with
        | ',' :: r4 => (parseObjItems f r4).map (fun p => ((k, v) :: p.1, p.2))
        | '\x7d' :: r4 => some ([(k, v)], r4)
        | _ => none
      | _ => none
    | _ => none
end

/-- `json.loads` on decoded text: the single JSON value, requiring the rest
of the input to be whitespace (`Extra data` otherwise). -/
def jsonLoads (cs : List Char) : Option Json :=
  match parseVal (cs.length + 1) cs with
  | some (j, rest) => if skipWs rest = [] then some j else none
  | none => none

example : jsonLoads "\x7b\x7d".data = some (Json.obj []) := by rfl
example : jsonLoads "not-json".data = none := by rfl
example :
    jsonLoads "\x7b\"a\": [1, -2, null, true], \"a\": \"x\"\x7d".data =
      some (Json.obj
        [("a", Json.arr [Json.num 1, Json.num (-2), Json.null, Json.bool true]),
         ("a", Json.str "x")]) := by rfl
example : jsonLoads " 01".data = none := by rfl
example : jsonLoads "".data = none := by rfl

/-- The Python exceptions the handler can raise while decoding, parsing and
converting a request body (line 25-26 of `test-server.py`). -/
inductive PyErr where
  | unicodeDecodeError
  | jsonDecodeError
  | attributeError (tyName : String)
  | typeError (tyName : String)
  | overflowError
deriving DecidableEq

/-- `str(e)` for each exception, as interpolated into the 400 response.
The wording abstracts CPython (positions and quoting omitted); every
variant is non-empty, which is all any claim states about it. -/
def PyErr.message : PyErr → String
  | .unicodeDecodeError => "utf-8 codec cannot decode byte: invalid start byte"
  | .jsonDecodeError => "Expecting value"
  | .attributeError t => t ++ " object has no attribute get"
  | .typeError t => "unsupported operand type(s) for /: " ++ t ++ " and int"
  | .overflowError => "timestamp out of range for platform localtime() function"

/-- The Python numeric value of a decoded JSON value, for the division
`data.get('timestamp', 0) / 1000`: ints, floats and booleans divide,
everything else raises `TypeError`.  The value is exact; IEEE rounding
never decides a claim. -/
def jsonToNum : Json → Option ℚ
  | .num n => some (n : ℚ)
  | .float q => some q
  | .bool b => some (if b then 1 else 0)
  | _ => none

/-- Smallest epoch-millisecond value `datetime.fromtimestamp` accepts
(year 1, UTC). -/
def minTimestampMs : Int := -62135596800000

/-- Largest epoch-millisecond value `datetime.fromtimestamp` accepts
(end of year 9999, UTC). -/
def maxTimestampMs : Int := 253402300799999

/-- Does `datetime.fromtimestamp(ms / 1000)` succeed?  The claims never
depend on the exact endpoints (which shift with the local timezone and,
for the boundary float, with IEEE rounding). -/
def fromtimestampOk (ms : ℚ) : Bool :=
  (minTimestampMs : ℚ) ≤ ms && ms ≤ (maxTimestampMs : ℚ)

/-- Does `datetime.fromtimestamp(v / 1000)` succeed on the decoded JSON
value `v`? -/
def tsValOk (v : Json) : Bool :=
  (jsonToNum v).elim false fromtimestampOk

/-- Does the timestamp conversion on line 26 succeed for this decoded
object (`data.get('timestamp', 0)` defaulting to `0`)? -/
def tsConvertible (fields : List (String × Json)) : Bool :=
  tsValOk ((jget fields "timestamp").getD (Json.num 0))

/-- Line 26 onward for a decoded object `data`:
`data.get('timestamp', 0) / 1000` (a `TypeError` if non-numeric), then
`datetime.fromtimestamp` (an overflow if out of range), then the
`data.get('action', 'unknown')` interpolation of the success message. -/
def processFields (fields : List (String × Json)) : Except PyErr String :=
  match jsonToNum ((jget fields "timestamp").getD (Json.num 0)) with
  | none =>
    .error (.typeError ((jget fields "timestamp").getD (Json.num 0)).pyType)
  | some ms =>
    if fromtimestampOk ms then
      .ok (pyStr ((jget fields "action").getD (Json.str "unknown")))
    else .error .overflowError

/-- Line 26 onward for any decoded value: a non-object has no `.get` and
raises `AttributeError`. -/
def processData : Json → Except PyErr String
  | .obj fields => processFields fields
  | other => .error (.attributeError other.pyType)

/-- `json.loads` and the rest of the `try` body on decoded text. -/
def processChars (chars : List Char) : Except PyErr String :=
  match jsonLoads chars with
  | none => .error .jsonDecodeError
  | some data => processData data

/-- The body of the `try` block (lines 25-44): decode the bytes, parse the
JSON, convert the timestamp and compute the `<action>` text interpolated
into the success message; or the exception that interrupts it. -/
def processBody (bytes : List Nat) : Except PyErr String :=
  match utf8Decode bytes with
  | none => .error .unicodeDecodeError
  | some chars => processChars chars

/-- One inbound HTTP request: method, path, the parsed `Content-Length`
header when present, and the connection's body bytes. -/
structure Request where
  method : String
  path : String
  contentLength : Option Nat
  body : List Nat

/-- What the handler wrote after the headers. -/
inductive RBody where
  | empty
  | jsonBody (j : Json)
  | errorPage (status : Nat)

/-- One HTTP response: status and the headers/body the handler emits. -/
structure Response where
  status : Nat
  headers : List (String × String)
  body : RBody

/-- The three headers sent by `do_OPTIONS`. -/
def corsAllHeaders : List (String × String) :=
  [("Access-Control-Allow-Origin", "*"),
   ("Access-Control-Allow-Methods", "GET, POST, OPTIONS"),
   ("Access-Control-Allow-Headers", "Content-Type")]

/-- The headers sent on both the 200 and the 400 branch of `do_POST`. -/
def jsonRespHeaders : List (String × String) :=
  [("Content-type", "application/json"),
   ("Access-Control-Allow-Origin", "*")]

/-- The 200 response of lines 35-44, with the serialized
`{'status': 'success', 'message': f"Received {action} command"}` body. -/
def successResponse (action : String) : Response :=
  ⟨200, jsonRespHeaders,
    .jsonBody (Json.obj
      [("status", Json.str "success"),
       ("message", Json.str ("Received " ++ action ++ " command"))])⟩

/-- The 400 response of lines 46-54, with the serialized
`{'status': 'error', 'message': str(e)}` body. -/
def errorResponse (e : PyErr) : Response :=
  ⟨400, jsonRespHeaders,
    .jsonBody (Json.obj
      [("status", Json.str "error"), ("message", Json.str e.message)])⟩

/-- `do_POST` (lines 19-57).  `int(self.headers['Content-Length'])` on
line 21 runs before the `try` block, so on a request without that header
the `TypeError` from `int(None)` escapes the handler and no response is
written: that case is `none`. -/
def do_POST (req : Request) : Option Response :=
  if req.path = "/light-control" then
    match req.contentLength with
    | none => none
    | some n =>
      match processBody (req.body.take n) with
      | .ok action => some (successResponse action)
      | .error e => some (errorResponse e)
  else
    some ⟨404, [], .empty⟩

/-- `do_OPTIONS` (lines 12-17): 200, the three CORS headers, empty body,
for any path. -/
def do_OPTIONS (_req : Request) : Option Response :=
  some ⟨200, corsAllHeaders, .empty⟩

/-- Method dispatch of the serving base class: `do_OPTIONS` and `do_POST`
are the only handlers `LightShowHandler` defines, so any other method gets
the stock `501 Unsupported method` error page. -/
def handle (req : Request) : Option Response :=
  if req.method = "OPTIONS" then do_OPTIONS req
  else if req.method = "POST" then do_POST req
  else
    some ⟨501,
      [("Content-Type", "text/html;charset=utf-8"), ("Connection", "close")],
      .errorPage 501⟩

/-- The server loop: requests are handled one at a time and the handler
class keeps no field or class-level mutable state, so the carried state is
`Unit`. -/
def serve (reqs : List Request) : List (Option Response) :=
  (reqs.foldl (fun (acc : Unit × List (Option Response)) r =>
    (acc.1, acc.2 ++ [handle r])) ((), [])).2

/-- The decoded JSON value of the bytes the handler reads (a helper for
stating claims about "the request body's JSON object"). -/
def bodyJson (req : Request) : Option Json :=
  match req.contentLength with
  | none => none
  | some n => (utf8Decode (req.body.take n)).bind jsonLoads

/-- The bytes of an ASCII string (every witness body is ASCII, where UTF-8
coincides with the code points). -/
def asciiBytes (s : String) : List Nat := s.data.map Char.toNat

/-- A POST to `/light-control` carrying `s` as body with a matching
`Content-Length`. -/
def postReq (s : String) : Request :=
  ⟨"POST", "/light-control", some (asciiBytes s).length, asciiBytes s⟩

example : handle (postReq "\x7b\x7d") = some (successResponse "unknown") := by rfl
example :
    handle (postReq "\x7b\"timestamp\":1700000000000,\"controller_id\":\"ctrl-1\",\"action\":\"flash_red\"\x7d") =
      some (successResponse "flash_red") := by rfl
example : handle (postReq "not-json") = some (errorResponse .jsonDecodeError) := by rfl
example :
    handle (postReq "\x7b\"timestamp\":\"oops\"\x7d") =
      some (errorResponse (.typeError "str")) := by rfl
example : handle ⟨"POST", "/light-control", none, []⟩ = none := by rfl
example : handle ⟨"GET", "/", none, []⟩ =
    some ⟨501, [("Content-Type", "text/html;charset=utf-8"), ("Connection", "close")], .errorPage 501⟩ := by rfl

example : jsonLoads "1.5".data = some (Json.float (mkRat 3 2)) := by rfl
example : jsonLoads "1e18".data = some (Json.float 1000000000000000000) := by rfl
example : jsonLoads "-2.5e-3".data = some (Json.float (mkRat (-1) 400)) := by rfl
example : jsonLoads "01.5".data = none := by rfl
example : pyFloatRepr (mkRat 3 2) = "1.5" := by rfl
example : pyFloatRepr 1000000000000000000 = "1e+18" := by rfl
example : pyFloatRepr (mkRat 1 10000) = "0.0001" := by rfl
example : pyFloatRepr (mkRat 1 100000) = "1e-05" := by rfl
example : pyFloatRepr (mkRat (-3) 2) = "-1.5" := by rfl
example :
    handle (postReq "\x7b\"action\":\"go\",\"x\":0.5\x7d") =
      some (successResponse "go") := by rfl
example :
    handle (postReq "\x7b\"timestamp\":1e18\x7d") =
      some (errorResponse .overflowError) := by rfl

section Helpers

/-- On a POST to `/light-control` with a `Content-Length` header, the
response is determined by the outcome of the `try` body. -/
lemma handle_post_processBody (req : Request) (n : Nat)
    (hm : req.method = "POST") (hp : req.path = "/light-control")
    (hcl : req.contentLength = some n) :
    handle req =
      match processBody (req.body.take n) with
      | .ok a => some (successResponse a)
      | .error e => some (errorResponse e) := by
  simp [handle, do_POST, hm, hp, hcl]

/-- A decoded body yields a successful UTF-8 decode and JSON parse of the
read bytes. -/
lemma bodyJson_elim (req : Request) (n : Nat) (j : Json)
    (hcl : req.contentLength = some n) (hb : bodyJson req = some j) :
    ∃ cs, utf8Decode (req.body.take n) = some cs ∧ jsonLoads cs = some j := by
  have hb' : (utf8Decode (req.body.take n)).bind jsonLoads = some j := by
    unfold bodyJson at hb
    rw [hcl] at hb
    exact hb
  cases hd : utf8Decode (req.body.take n) with
  | none => rw [hd] at hb'; exact Option.noConfusion hb'
  | some cs =>
    rw [hd] at hb'
    exact ⟨cs, rfl, hb'⟩

/-- The `try` body succeeds on an object body whose timestamp converts,
producing the interpolated action text. -/
lemma processBody_ok_of (bytes : List Nat) (cs : List Char)
    (fields : List (String × Json))
    (hd : utf8Decode bytes = some cs)
    (hl : jsonLoads cs = some (Json.obj fields))
    (ht : tsConvertible fields = true) :
    processBody bytes =
      .ok (pyStr ((jget fields "action").getD (Json.str "unknown"))) := by
  have h1 : processBody bytes = processChars cs := by
    unfold processBody; rw [hd]
  have h2 : processChars cs = processFields fields := by
    unfold processChars; rw [hl]; rfl
  rw [h1, h2]
  unfold tsConvertible tsValOk at ht
  unfold processFields
  cases hv : jsonToNum ((jget fields "timestamp").getD (Json.num 0)) with
  | none => rw [hv] at ht; simp at ht
  | some ms => rw [hv] at ht; simp at ht; simp [ht]

/-- The success response on an object body whose timestamp converts. -/
lemma handle_success (req : Request) (n : Nat) (fields : List (String × Json))
    (hm : req.method = "POST") (hp : req.path = "/light-control")
    (hcl : req.contentLength = some n)
    (hb : bodyJson req = some (Json.obj fields))
    (ht : tsConvertible fields = true) :
    handle req =
      some (successResponse (pyStr ((jget fields "action").getD (Json.str "unknown")))) := by
  obtain ⟨cs, hd, hl⟩ := bodyJson_elim req n _ hcl hb
  rw [handle_post_processBody req n hm hp hcl, processBody_ok_of _ cs fields hd hl ht]

/-- The error response when the `try` body raises. -/
lemma handle_error (req : Request) (n : Nat) (e : PyErr)
    (hm : req.method = "POST") (hp : req.path = "/light-control")
    (hcl : req.contentLength = some n)
    (he : processBody (req.body.take n) = .error e) :
    handle req = some (errorResponse e) := by
  rw [handle_post_processBody req n hm hp hcl, he]

/-- A POST to `/light-control` without a `Content-Length` header produces
no response (`int(None)` raises before the `try` block). -/
lemma handle_no_content_length (req : Request)
    (hm : req.method = "POST") (hp : req.path = "/light-control")
    (hcl : req.contentLength = none) :
    handle req = none := by
  simp [handle, do_POST, hm, hp, hcl]

/-- The server loop appends one response per request to the accumulator. -/
lemma serve_foldl (reqs : List Request) :
    ∀ acc : List (Option Response),
      (reqs.foldl (fun (acc : Unit × List (Option Response)) r =>
        (acc.1, acc.2 ++ [handle r])) ((), acc)).2 = acc ++ reqs.map handle := by
  induction reqs with
  | nil => intro acc; simp
  | cons r rs ih => intro acc; simp [ih]

/-- Each response of the server loop is a function of its own request
alone. -/
lemma serve_eq_map (reqs : List Request) : serve reqs = reqs.map handle := by
  unfold serve
  simpa using serve_foldl reqs []

end Helpers

/-- A successful decode reduces the `try` body to its parsing stage. -/
lemma processBody_decodes (bytes : List Nat) (cs : List Char)
    (hd : utf8Decode bytes = some cs) : processBody bytes = processChars cs := by
  unfold processBody; rw [hd]

/-- A failed decode raises `UnicodeDecodeError`. -/
lemma processBody_utf8_err (bytes : List Nat)
    (hd : utf8Decode bytes = none) :
    processBody bytes = .error .unicodeDecodeError := by
  unfold processBody; rw [hd]

/-- A failed parse raises `JSONDecodeError`. -/
lemma processChars_json_err (cs : List Char) (hl : jsonLoads cs = none) :
    processChars cs = .error .jsonDecodeError := by
  unfold processChars; rw [hl]

/-- A successful parse reduces the `try` body to its field stage. -/
lemma processChars_data (cs : List Char) (j : Json)
    (hl : jsonLoads cs = some j) : processChars cs = processData j := by
  unfold processChars; rw [hl]

/-- A decoded non-object raises `AttributeError` at the first `.get`. -/
lemma processData_non_obj (j : Json) (h : j.isObj = false) :
    processData j = .error (.attributeError j.pyType) := by
  cases j <;> simp_all [processData, Json.isObj]

/-- A non-convertible timestamp raises (a `TypeError` or an overflow). -/
lemma processFields_err (fields : List (String × Json))
    (ht : tsConvertible fields = false) :
    ∃ e : PyErr, processFields fields = .error e := by
  unfold tsConvertible tsValOk at ht
  unfold processFields
  cases hv : jsonToNum ((jget fields "timestamp").getD (Json.num 0)) with
  | none => exact ⟨_, rfl⟩
  | some ms =>
    rw [hv] at ht
    simp at ht
    exact ⟨.overflowError, by simp [ht]⟩

/-- C1, corrected: for every POST to `/light-control` whose body is a valid
UTF-8 JSON object *whose `timestamp` value (if present) is numeric and
within convertible range*, the response is 200 with a JSON body of status
"success" and message "Received <action> command", where `<action>` is the
interpolation of the body's `action` value ("unknown" if absent); in
particular `{}` yields "Received unknown command" and the flash_red
scenario yields "Received flash_red command". -/
theorem C1_valid_object_success :
    (∀ (req : Request) (n : Nat) (fields : List (String × Json)),
        req.method = "POST" → req.path = "/light-control" →
        req.contentLength = some n →
        bodyJson req = some (Json.obj fields) →
        tsConvertible fields = true →
        handle req =
          some (successResponse (pyStr ((jget fields "action").getD (Json.str "unknown")))))
    ∧ handle (postReq "\x7b\x7d") = some (successResponse "unknown")
    ∧ handle (postReq "\x7b\"timestamp\":1700000000000,\"controller_id\":\"ctrl-1\",\"action\":\"flash_red\"\x7d") =
        some (successResponse "flash_red") := by
  refine ⟨?_, by rfl, by rfl⟩
  intro req n fields hm hp hcl hb ht
  exact handle_success req n fields hm hp hcl hb ht

/-- Witness instantiating C1 at the body `{"timestamp":1.5,"action":"x"}`
(a float timestamp, well inside the convertible range). -/
theorem C1_valid_object_success_witness :
    handle (postReq "\x7b\"timestamp\":1.5,\"action\":\"x\"\x7d") =
      some (successResponse "x") :=
  C1_valid_object_success.1 _ _
    [("timestamp", Json.float (mkRat 3 2)), ("action", Json.str "x")]
    rfl rfl rfl rfl rfl

/-- C1 as stated is false: `{"timestamp":"oops"}` is a valid UTF-8 JSON
object, yet the handler answers 400 (the string `timestamp` makes the
division on line 26 raise `TypeError`), not 200. -/
theorem C1_counterexample :
    bodyJson (postReq "\x7b\"timestamp\":\"oops\"\x7d") =
      some (Json.obj [("timestamp", Json.str "oops")])
    ∧ (handle (postReq "\x7b\"timestamp\":\"oops\"\x7d")).map Response.status =
        some 400 :=
  ⟨rfl, rfl⟩

/-- C2, corrected: every error raised inside the `try` block (UTF-8
decoding, JSON parsing, timestamp conversion) is caught and converted into
a 400 response with JSON body `{"status":"error","message":<description>}`
carrying the `Access-Control-Allow-Origin` header — but an error while
reading the request metadata is not: a missing `Content-Length` header
makes `int(None)` raise before the `try` block and no response is written
(the serving framework, outside the handler, absorbs the exception). -/
theorem C2_error_boundary :
    (∀ (req : Request) (n : Nat) (e : PyErr),
        req.method = "POST" → req.path = "/light-control" →
        req.contentLength = some n →
        processBody (req.body.take n) = .error e →
        handle req = some (errorResponse e) ∧
        (errorResponse e).status = 400 ∧
        ("Access-Control-Allow-Origin", "*") ∈ (errorResponse e).headers ∧
        (errorResponse e).body =
          RBody.jsonBody (Json.obj
            [("status", Json.str "error"), ("message", Json.str e.message)]))
    ∧ (∀ req : Request,
        req.method = "POST" → req.path = "/light-control" →
        req.contentLength = none → handle req = none) := by
  constructor
  · intro req n e hm hp hcl he
    refine ⟨handle_error req n e hm hp hcl he, rfl, ?_, rfl⟩
    simp [errorResponse, jsonRespHeaders]
  · intro req hm hp hcl
    exact handle_no_content_length req hm hp hcl

/-- Witness instantiating C2 at the body `not-json`. -/
theorem C2_error_boundary_witness :
    handle (postReq "not-json") = some (errorResponse PyErr.jsonDecodeError) ∧
    (errorResponse PyErr.jsonDecodeError).status = 400 ∧
    ("Access-Control-Allow-Origin", "*") ∈
      (errorResponse PyErr.jsonDecodeError).headers ∧
    (errorResponse PyErr.jsonDecodeError).body =
      RBody.jsonBody (Json.obj
        [("status", Json.str "error"),
         ("message", Json.str PyErr.jsonDecodeError.message)]) :=
  C2_error_boundary.1 (postReq "not-json") _ _ rfl rfl rfl rfl

/-- C2 as stated is false for a POST to `/light-control` without a
`Content-Length` header: the claim demands a 400 response, but the
`TypeError` from `int(None)` on line 21 escapes the handler and no
response at all is produced. -/
theorem C2_counterexample :
    handle ⟨"POST", "/light-control", none, asciiBytes "\x7b\x7d"⟩ = none := rfl

/-- C3, corrected: a body of invalid UTF-8 bytes or invalid JSON gets a 400
response whose `message` is non-empty — but a request with *no*
`Content-Length` header gets no response at all (the error is raised
before the `try` block), not a 400. -/
theorem C3_malformed_body_400 :
    (∀ (req : Request) (n : Nat),
        req.method = "POST" → req.path = "/light-control" →
        req.contentLength = some n →
        (utf8Decode (req.body.take n) = none ∨
          ∃ cs, utf8Decode (req.body.take n) = some cs ∧ jsonLoads cs = none) →
        ∃ e : PyErr,
          handle req = some (errorResponse e) ∧
          (errorResponse e).status = 400 ∧ e.message ≠ "")
    ∧ handle (postReq "not-json") = some (errorResponse PyErr.jsonDecodeError) := by
  constructor
  · intro req n hm hp hcl hbad
    cases hbad with
    | inl hd =>
      exact ⟨.unicodeDecodeError,
        handle_error req n _ hm hp hcl (processBody_utf8_err _ hd), rfl, by decide⟩
    | inr h =>
      obtain ⟨cs, hd, hl⟩ := h
      refine ⟨.jsonDecodeError, handle_error req n _ hm hp hcl ?_, rfl, by decide⟩
      rw [processBody_decodes _ cs hd, processChars_json_err cs hl]
  · rfl

/-- Witness instantiating C3 at the single non-UTF-8 byte `0xFF`. -/
theorem C3_malformed_body_400_witness :
    ∃ e : PyErr,
      handle ⟨"POST", "/light-control", some 1, [255]⟩ =
        some (errorResponse e) ∧
      (errorResponse e).status = 400 ∧ e.message ≠ "" :=
  C3_malformed_body_400.1 ⟨"POST", "/light-control", some 1, [255]⟩ 1 rfl rfl rfl
    (Or.inl rfl)

/-- C3 as stated is false for the absent-`Content-Length` case: the claim
demands a 400 response, but the handler raises before the `try` block and
no response is produced. -/
theorem C3_counterexample :
    handle ⟨"POST", "/light-control", none, asciiBytes "not-json"⟩ = none := rfl

/-- C4, corrected: a POST to any path other than `/light-control` gets 404
with an empty body and no headers (in particular no CORS headers) — but a
GET does not get 404: `LightShowHandler` defines no `do_GET`, so the
serving base class answers 501 (`Unsupported method`) with an HTML error
page. -/
theorem C4_unrecognized_requests :
    (∀ req : Request, req.method = "POST" → req.path ≠ "/light-control" →
        handle req = some ⟨404, [], RBody.empty⟩)
    ∧ (∀ req : Request, req.method = "GET" →
        handle req =
          some ⟨501,
            [("Content-Type", "text/html;charset=utf-8"), ("Connection", "close")],
            RBody.errorPage 501⟩) := by
  constructor
  · intro req hm hp
    simp [handle, do_POST, hm, hp]
  · intro req hm
    simp [handle, hm]

/-- Witness instantiating C4 at `POST /other` and `GET /light-control`. -/
theorem C4_unrecognized_requests_witness :
    handle ⟨"POST", "/other", some 0, []⟩ = some ⟨404, [], RBody.empty⟩ ∧
    handle ⟨"GET", "/light-control", none, []⟩ =
      some ⟨501,
        [("Content-Type", "text/html;charset=utf-8"), ("Connection", "close")],
        RBody.errorPage 501⟩ :=
  ⟨C4_unrecognized_requests.1 _ rfl (by decide),
   C4_unrecognized_requests.2 _ rfl⟩

/-- C4 as stated is false for GET requests: the response status is 501,
not the claimed 404. -/
theorem C4_counterexample :
    (handle ⟨"GET", "/", none, []⟩).map Response.status = some 501 := rfl

/-- C5: every OPTIONS request, whatever its path or body, gets 200 with an
empty body and exactly the three CORS headers
`Access-Control-Allow-Origin: *`,
`Access-Control-Allow-Methods: GET, POST, OPTIONS` and
`Access-Control-Allow-Headers: Content-Type`. -/
theorem C5_options_preflight (req : Request) (h : req.method = "OPTIONS") :
    handle req = some ⟨200, corsAllHeaders, RBody.empty⟩ := by
  simp [handle, do_OPTIONS, h]

/-- Witness instantiating C5 at `OPTIONS /anything` with a non-empty
body. -/
theorem C5_options_preflight_witness :
    handle ⟨"OPTIONS", "/anything", some 3, asciiBytes "abc"⟩ =
      some ⟨200, corsAllHeaders, RBody.empty⟩ :=
  C5_options_preflight _ rfl

/-- Parsing the `action` back out of a success message: the text between
the 9-character prefix `Received ` and the 8-character suffix
` command`. -/
def extractAction (msg : String) : String :=
  String.mk ((msg.data.drop 9).take (msg.data.length - 17))

/-- Dropping the prefix and suffix of a success message recovers the
interpolated action exactly. -/
lemma extract_message_roundtrip (a : String) :
    extractAction ("Received " ++ a ++ " command") = a := by
  unfold extractAction
  have hd : ("Received " ++ a ++ " command").data =
      "Received ".data ++ (a.data ++ " command".data) := by
    simp [String.data_append]
  rw [hd]
  have h9 : ("Received ".data).length = 9 := rfl
  have h8 : (" command".data).length = 8 := rfl
  rw [List.length_append, List.length_append, h9, h8]
  have harith : 9 + (a.data.length + 8) - 17 = a.data.length := by omega
  rw [harith, ← h9, List.drop_left, List.take_left]

/-- C6, corrected: for every JSON object body containing only the keys
`timestamp`, `controller_id` and `action`, with a string `action` *and a
timestamp value that converts* (the claim as stated fails when `timestamp`
is, e.g., a string), the POST succeeds and extracting the text between
`Received ` and ` command` from the success message reproduces the input
`action` exactly. -/
theorem C6_roundtrip :
    (∀ (req : Request) (n : Nat) (fields : List (String × Json)) (a : String),
        req.method = "POST" → req.path = "/light-control" →
        req.contentLength = some n →
        bodyJson req = some (Json.obj fields) →
        (∀ kv ∈ fields,
          kv.1 = "timestamp" ∨ kv.1 = "controller_id" ∨ kv.1 = "action") →
        jget fields "action" = some (Json.str a) →
        tsConvertible fields = true →
        handle req = some (successResponse a) ∧
        extractAction ("Received " ++ a ++ " command") = a)
    ∧ (∀ a : String, extractAction ("Received " ++ a ++ " command") = a) := by
  constructor
  · intro req n fields a hm hp hcl hb _hkeys hact ht
    refine ⟨?_, extract_message_roundtrip a⟩
    have h := handle_success req n fields hm hp hcl hb ht
    rw [hact] at h
    exact h
  · exact extract_message_roundtrip

/-- Witness instantiating C6 at
`{"timestamp":1.5,"controller_id":"c","action":"go"}` (a float
timestamp). -/
theorem C6_roundtrip_witness :
    handle (postReq "\x7b\"timestamp\":1.5,\"controller_id\":\"c\",\"action\":\"go\"\x7d") =
      some (successResponse "go") ∧
    extractAction ("Received " ++ "go" ++ " command") = "go" :=
  C6_roundtrip.1 _ _
    [("timestamp", Json.float (mkRat 3 2)), ("controller_id", Json.str "c"),
     ("action", Json.str "go")]
    "go" rfl rfl rfl rfl (by decide) rfl rfl

/-- C6 as stated is false: an object with only the three recognized keys
and a string `action` but a string `timestamp` gets a 400 `TypeError`
response, so there is no success message to parse back. -/
theorem C6_counterexample :
    bodyJson (postReq "\x7b\"timestamp\":\"late\",\"controller_id\":\"ctrl-1\",\"action\":\"flash_red\"\x7d") =
      some (Json.obj
        [("timestamp", Json.str "late"), ("controller_id", Json.str "ctrl-1"),
         ("action", Json.str "flash_red")])
    ∧ handle (postReq "\x7b\"timestamp\":\"late\",\"controller_id\":\"ctrl-1\",\"action\":\"flash_red\"\x7d") =
        some (errorResponse (PyErr.typeError "str")) :=
  ⟨rfl, rfl⟩

/-- C7: handling is stateless — the response list is pointwise a function
of each request alone — so the identical valid event body submitted twice
yields two independent 200 responses with identical message content. -/
theorem C7_idempotent_stateless :
    (∀ (req : Request) (n : Nat) (a : String),
        req.method = "POST" → req.path = "/light-control" →
        req.contentLength = some n →
        processBody (req.body.take n) = .ok a →
        serve [req, req] = [some (successResponse a), some (successResponse a)] ∧
        (successResponse a).status = 200)
    ∧ (∀ reqs : List Request, serve reqs = reqs.map handle) := by
  constructor
  · intro req n a hm hp hcl hok
    have h : handle req = some (successResponse a) := by
      rw [handle_post_processBody req n hm hp hcl, hok]
    refine ⟨?_, rfl⟩
    rw [serve_eq_map]
    simp [h]
  · exact serve_eq_map

/-- Witness instantiating C7 at `{"action":"flash_red"}` sent twice. -/
theorem C7_idempotent_stateless_witness :
    serve [postReq "\x7b\"action\":\"flash_red\"\x7d",
           postReq "\x7b\"action\":\"flash_red\"\x7d"] =
      [some (successResponse "flash_red"), some (successResponse "flash_red")] ∧
    (successResponse "flash_red").status = 200 :=
  C7_idempotent_stateless.1 _ _ "flash_red" rfl rfl rfl rfl

/-- C8: an object body whose `timestamp` is present but non-numeric or out
of convertible range makes the conversion on line 26 raise, falls into the
generic error path, and gets a 400 response — never a silent default. -/
theorem C8_bad_timestamp_400 (req : Request) (n : Nat)
    (fields : List (String × Json)) (v : Json)
    (hm : req.method = "POST") (hp : req.path = "/light-control")
    (hcl : req.contentLength = some n)
    (hb : bodyJson req = some (Json.obj fields))
    (hv : jget fields "timestamp" = some v)
    (hbad : tsValOk v = false) :
    ∃ e : PyErr,
      handle req = some (errorResponse e) ∧ (errorResponse e).status = 400 := by
  obtain ⟨cs, hd, hl⟩ := bodyJson_elim req n _ hcl hb
  have ht : tsConvertible fields = false := by
    unfold tsConvertible; rw [hv]; exact hbad
  obtain ⟨e, he⟩ := processFields_err fields ht
  refine ⟨e, ?_, rfl⟩
  apply handle_error req n e hm hp hcl
  rw [processBody_decodes _ cs hd, processChars_data cs _ hl]
  exact he

/-- Witness instantiating C8 at `{"timestamp":1e18}`: a float literal
numerically far outside the convertible range (the real
`datetime.fromtimestamp(1e15)` overflows). -/
theorem C8_bad_timestamp_400_witness :
    ∃ e : PyErr,
      handle (postReq "\x7b\"timestamp\":1e18\x7d") = some (errorResponse e) ∧
      (errorResponse e).status = 400 :=
  C8_bad_timestamp_400 _ _ [("timestamp", Json.float 1000000000000000000)]
    (Json.float 1000000000000000000) rfl rfl rfl rfl rfl rfl

/-- C9 (implicit): a valid-JSON body that is not an object (array, string,
number, boolean, null) has no `.get`, raises `AttributeError`, and gets a
400 response with status "error" — never a 200. -/
theorem C9_non_object_400 (req : Request) (n : Nat) (j : Json)
    (hm : req.method = "POST") (hp : req.path = "/light-control")
    (hcl : req.contentLength = some n)
    (hb : bodyJson req = some j) (hno : j.isObj = false) :
    handle req = some (errorResponse (.attributeError j.pyType)) ∧
    (handle req).map Response.status = some 400 := by
  obtain ⟨cs, hd, hl⟩ := bodyJson_elim req n _ hcl hb
  have h : handle req = some (errorResponse (.attributeError j.pyType)) := by
    apply handle_error req n _ hm hp hcl
    rw [processBody_decodes _ cs hd, processChars_data cs _ hl]
    exact processData_non_obj j hno
  exact ⟨h, by rw [h]; rfl⟩

/-- Witness instantiating C9 at the scalar float body `1.5` (the real
handler raises `AttributeError` on the decoded `float`). -/
theorem C9_non_object_400_witness :
    handle (postReq "1.5") =
      some (errorResponse (PyErr.attributeError "float")) ∧
    (handle (postReq "1.5")).map Response.status = some 400 :=
  C9_non_object_400 _ _ (Json.float (mkRat 3 2)) rfl rfl rfl rfl rfl

/-- C10 (implicit noninterference): two object bodies with the same
`action` value (or both lacking one) and timestamps both absent or both
numeric-and-convertible produce identical responses; `controller_id` and
`timestamp` only reach the console, never the response. -/
theorem C10_noninterference (r1 r2 : Request) (n1 n2 : Nat)
    (f1 f2 : List (String × Json))
    (hm1 : r1.method = "POST") (hp1 : r1.path = "/light-control")
    (hcl1 : r1.contentLength = some n1)
    (hm2 : r2.method = "POST") (hp2 : r2.path = "/light-control")
    (hcl2 : r2.contentLength = some n2)
    (hb1 : bodyJson r1 = some (Json.obj f1))
    (hb2 : bodyJson r2 = some (Json.obj f2))
    (hact : jget f1 "action" = jget f2 "action")
    (hts : (jget f1 "timestamp" = none ∧ jget f2 "timestamp" = none) ∨
        (∃ v1 v2, jget f1 "timestamp" = some v1 ∧ jget f2 "timestamp" = some v2 ∧
          tsValOk v1 = true ∧ tsValOk v2 = true)) :
    handle r1 = handle r2 := by
  have hconv : tsConvertible f1 = true ∧ tsConvertible f2 = true := by
    cases hts with
    | inl h =>
      refine ⟨?_, ?_⟩
      · unfold tsConvertible; rw [h.1]; rfl
      · unfold tsConvertible; rw [h.2]; rfl
    | inr h =>
      obtain ⟨v1, v2, h1, h2, o1, o2⟩ := h
      refine ⟨?_, ?_⟩
      · unfold tsConvertible; rw [h1]; exact o1
      · unfold tsConvertible; rw [h2]; exact o2
  rw [handle_success r1 n1 f1 hm1 hp1 hcl1 hb1 hconv.1,
      handle_success r2 n2 f2 hm2 hp2 hcl2 hb2 hconv.2, hact]

/-- Witness instantiating C10 at the pair `{"action":"w","x":0.5}` and
`{"action":"w"}`: same `action`, timestamps both absent, and a float in an
unrecognized field on one side only — the responses coincide. -/
theorem C10_noninterference_witness :
    handle (postReq "\x7b\"action\":\"w\",\"x\":0.5\x7d") =
      handle (postReq "\x7b\"action\":\"w\"\x7d") :=
  C10_noninterference _ _ _ _
    [("action", Json.str "w"), ("x", Json.float (mkRat 1 2))]
    [("action", Json.str "w")]
    rfl rfl rfl rfl rfl rfl rfl rfl rfl
    (Or.inl ⟨rfl, rfl⟩)
